import Mathlib

/-!
Verification of the appointment-booking backend (Express/Mongoose service).

The definitions below are a shallow embedding of the final versions of the
handlers and helpers in `src/api.js` (the file contains two near-identical
copies of the availability/booking engine; the spec treats the later copy,
lines 1066-1812, as canonical) and of `src/otpService.js`.

Modelling conventions:
* Instants (JavaScript `Date.getTime()` values) are integers, in epoch
  milliseconds.  For a fixed request date the string
  `date ++ "T" ++ HH:MM ++ ":00+05:30"` denotes the instant
  `dayBase + minutesOfDay * 60000`, where `dayBase` is the epoch instant of
  the date at midnight `+05:30`; the parameter `dayBase` abstracts the date.
* The Mongo collections are lists of records; `findOne` is `List.find?`,
  `deleteOne` is `List.eraseP` (at most one document is removed).
* The JavaScript `while` loop of `generateAvailableSlots` is compiled to a
  fuel-consuming structural recursion; the fuel `endMinutes` bounds the
  number of iterations, which is at most `endMinutes / 30`.
-/

namespace Medicare

/-- Busy interval reported by the external calendar free/busy query
(`busy.start` / `busy.end` in `isSlotConflicting`). -/
structure BusyPeriod where
  start : Int
  «end» : Int
  deriving Repr, DecidableEq

/-- Appointment record (fields of the Mongoose `Appointment` schema that the
conflict engine reads: `doctorId`, `startDateTime`, `endDateTime`, `status`,
plus the identifying `appointmentId` and `patientId`). -/
structure Appointment where
  appointmentId : String
  doctorId : String
  patientId : String
  startDateTime : Int
  endDateTime : Int
  status : String
  deriving Repr, DecidableEq

/-- The half-open interval overlap test used by both conflict-check call
sites: `slotStartTime < busyEnd && slotEndTime > busyStart` in
`isSlotConflicting`, and `startDateTime: {$lt: end}, endDateTime: {$gt:
start}` in the booking handler's Mongo query. -/
def overlaps (aStart aEnd bStart bEnd : Int) : Bool :=
  decide (aStart < bEnd) && decide (aEnd > bStart)

/-- `isSlotConflicting(slotStart, slotEnd, busyPeriods, existingAppointments)`
from `src/api.js`: the slot conflicts if it overlaps any calendar busy period
or any of the supplied existing appointments. -/
def isSlotConflicting (slotStart slotEnd : Int) (busyPeriods : List BusyPeriod)
    (existingAppointments : List Appointment) : Bool :=
  busyPeriods.any (fun busy => overlaps slotStart slotEnd busy.start busy.«end») ||
  existingAppointments.any (fun appointment =>
    overlaps slotStart slotEnd appointment.startDateTime appointment.endDateTime)

/-- Two-digit zero-padded decimal rendering,
`n.toString().padStart(2, '0')`; faithful for `n < 100`, which covers every
use (hours below 24 and minutes below 60). -/
def pad2 (n : Nat) : String :=
  ⟨[Char.ofNat (48 + n / 10), Char.ofNat (48 + n % 10)]⟩

/-- The `hour > 12 ? hour - 12 : (hour === 0 ? 12 : hour)` conversion of
`formatTimeDisplay`. -/
def displayHour (hour : Nat) : Nat :=
  if hour > 12 then hour - 12 else if hour = 0 then 12 else hour

/-- `formatTimeDisplay(hour, minute)` from `src/api.js`: 12-hour clock label
such as `"09:00 AM"`. -/
def formatTimeDisplay (hour minute : Nat) : String :=
  let period := if hour ≥ 12 then "PM" else "AM"
  pad2 (displayHour hour) ++ ":" ++ pad2 minute ++ " " ++ period

/-- The slot object pushed by `generateAvailableSlots`.  The ISO datetime
strings `startISO`/`endISO` are represented by the instants they denote (see
the module conventions). -/
structure Slot where
  time : String
  startTime : String
  endTime : String
  startISO : Int
  endISO : Int
  deriving Repr, DecidableEq

/-- One loop-body iteration's slot object for the candidate starting at
`currentMinutes` minutes after midnight. -/
def mkSlot (dayBase : Int) (currentMinutes : Nat) : Slot :=
  let slotHour := currentMinutes / 60
  let slotMinute := currentMinutes % 60
  let nextMinutes := currentMinutes + 30
  let nextHour := nextMinutes / 60
  let nextMinute := nextMinutes % 60
  { time := formatTimeDisplay slotHour slotMinute ++ " - " ++ formatTimeDisplay nextHour nextMinute
    startTime := pad2 slotHour ++ ":" ++ pad2 slotMinute
    endTime := pad2 nextHour ++ ":" ++ pad2 nextMinute
    startISO := dayBase + (currentMinutes : Int) * 60000
    endISO := dayBase + (nextMinutes : Int) * 60000 }

/-- The `while (currentMinutes + 30 <= endMinutes)` loop of
`generateAvailableSlots`, with explicit fuel (the loop runs at most
`endMinutes / 30` times, so any fuel `≥ (endMinutes - currentMinutes) / 30`
is enough). -/
def genSlotsLoop (dayBase : Int) (busyPeriods : List BusyPeriod)
    (existingAppointments : List Appointment) :
    Nat → Nat → Nat → List Slot
  | 0, _, _ => []
  | fuel + 1, currentMinutes, endMinutes =>
    if currentMinutes + 30 ≤ endMinutes then
      let slot := mkSlot dayBase currentMinutes
      let isAvailable := ! isSlotConflicting slot.startISO slot.endISO
        busyPeriods existingAppointments
      let rest := genSlotsLoop dayBase busyPeriods existingAppointments
        fuel (currentMinutes + 30) endMinutes
      if isAvailable then slot :: rest else rest
    else []

/-- `generateAvailableSlots(date, startTime, endTime, busyPeriods,
existingAppointments)` from `src/api.js`.  The `"HH:MM"` strings `startTime`
and `endTime` are passed as the hour/minute pairs the source obtains by
`split(':').map(Number)`; the request date is abstracted by `dayBase`. -/
def generateAvailableSlots (dayBase : Int)
    (startHour startMinute endHour endMinute : Nat)
    (busyPeriods : List BusyPeriod)
    (existingAppointments : List Appointment) : List Slot :=
  genSlotsLoop dayBase busyPeriods existingAppointments
    (endHour * 60 + endMinute)
    (startHour * 60 + startMinute)
    (endHour * 60 + endMinute)

/-! ### Booking-time parsing of the slot display label

The booking handler extracts the FIRST `"HH:MM AM/PM"` time occurring in the
client-supplied `timeSlot` string with the regular expression
`/(\d{2}):(\d{2})\s*(AM|PM)/i` and reconstructs the end time from the start
time alone (`endHour = hour + (minute === '30' ? 1 : 0)` etc.). -/

/-- `\d` of the regex. -/
def isDigitChar (c : Char) : Bool :=
  decide ('0' ≤ c) && decide (c ≤ '9')

/-- Numeric value of a decimal digit character. -/
def digitVal (c : Char) : Nat :=
  c.toNat - 48

/-- `\s` of the regex (the only whitespace occurring in generated labels is a
single space). -/
def isSpaceChar (c : Char) : Bool :=
  c == ' ' || c == '\t' || c == '\n' || c == '\r'

/-- Greedy `\s*`. -/
def dropSpaces : List Char → List Char
  | [] => []
  | c :: cs => if isSpaceChar c then dropSpaces cs else c :: cs

/-- `(AM|PM)` with the `i` flag; `true` means PM. -/
def matchAmPm : List Char → Option Bool
  | c1 :: c2 :: _ =>
    if (c1 == 'A' || c1 == 'a') && (c2 == 'M' || c2 == 'm') then some false
    else if (c1 == 'P' || c1 == 'p') && (c2 == 'M' || c2 == 'm') then some true
    else none
  | _ => none

/-- Attempt to match `(\d{2}):(\d{2})\s*(AM|PM)` at the head of the list,
returning (hour group, minute group, isPM). -/
def matchTimeAt : List Char → Option (Nat × Nat × Bool)
  | c1 :: c2 :: c3 :: c4 :: c5 :: rest =>
    if isDigitChar c1 && isDigitChar c2 && c3 == ':' &&
        isDigitChar c4 && isDigitChar c5 then
      match matchAmPm (dropSpaces rest) with
      | some isPM =>
        some (digitVal c1 * 10 + digitVal c2, digitVal c4 * 10 + digitVal c5, isPM)
      | none => none
    else none
  | _ => none

/-- Leftmost match of the regex over the whole string
(`timeSlot.match(...)`). -/
def timeMatch : List Char → Option (Nat × Nat × Bool)
  | [] => none
  | c :: cs =>
    match matchTimeAt (c :: cs) with
    | some r => some r
    | none => timeMatch cs

/-- The booking handler's reconstruction of the chosen interval from
`timeSlot`, as minute-of-day offsets `(startMinutes, endMinutes)`; `none`
models the `timeMatch` failure that is answered with the 400 response. -/
def parseTimeSlot (timeSlot : String) : Option (Nat × Nat) :=
  match timeMatch timeSlot.data with
  | none => none
  | some (hour12, minute, isPM) =>
    let hour := if isPM && hour12 < 12 then hour12 + 12
      else if !isPM && hour12 = 12 then 0
      else hour12
    let endHour := hour + (if minute = 30 then 1 else 0)
    let endMinute := if minute = 30 then 0 else 30
    some (hour * 60 + minute, endHour * 60 + endMinute)

/-! ### The booking handler (`POST /appointments/book`) -/

/-- The commit-time conflict lookup
`Appointment.findOne({doctorId, status: {$ne: 'cancelled'},
startDateTime: {$lt: end}, endDateTime: {$gt: start}})`. -/
def findConflicting (store : List Appointment) (doctorId : String)
    (startDT endDT : Int) : Option Appointment :=
  store.find? (fun a =>
    a.doctorId == doctorId && a.status != "cancelled" &&
    overlaps a.startDateTime a.endDateTime startDT endDT)

deriving instance DecidableEq for Except

/-- Response assembled by the booking handler.  `emailStatus` is the soft
notification-outcome field: `none` is the JS `null` (no patient email),
`some (Except.ok m)` a delivered message id, `some (Except.error m)` the
`{error: message}` object recorded when `sendConfirmationEmail` throws. -/
structure BookResponse where
  status : Nat
  success : Bool
  error : Option String
  appointment : Option Appointment
  emailStatus : Option (Except String String)
  deriving Repr, DecidableEq

/-- The state-relevant core of the `POST /appointments/book` handler, after
doctor resolution and patient upsert: parse `timeSlot` (400 on failure),
re-check conflicts (409 and no write on conflict), persist the appointment
with status `confirmed`, then attach the best-effort email outcome
(`emailOutcome` abstracts the `sendConfirmationEmail` call, whose failure is
caught and demoted to the `emailStatus` field).  Returns the response
together with the new appointment store. -/
def bookAppointment (store : List Appointment)
    (doctorId newAppointmentId patientId : String) (dayBase : Int)
    (timeSlot : String) (patientHasEmail : Bool)
    (emailOutcome : Except String String) :
    BookResponse × List Appointment :=
  match parseTimeSlot timeSlot with
  | none =>
    ({ status := 400, success := false, error := some "Invalid time slot format",
       appointment := none, emailStatus := none }, store)
  | some (startMinutes, endMinutes) =>
    let startDateTime := dayBase + (startMinutes : Int) * 60000
    let endDateTime := dayBase + (endMinutes : Int) * 60000
    match findConflicting store doctorId startDateTime endDateTime with
    | some _ =>
      ({ status := 409, success := false,
         error := some "This time slot is no longer available",
         appointment := none, emailStatus := none }, store)
    | none =>
      let appointment : Appointment :=
        { appointmentId := newAppointmentId, doctorId := doctorId,
          patientId := patientId, startDateTime := startDateTime,
          endDateTime := endDateTime, status := "confirmed" }
      ({ status := 200, success := true, error := none,
         appointment := some appointment,
         emailStatus := if patientHasEmail then some emailOutcome else none },
       store ++ [appointment])

/-- `POST /appointments/:appointmentId/cancel`: flips `status` to
`cancelled` on the (unique, per the schema) matching document. -/
def cancelAppointmentLogical (store : List Appointment)
    (appointmentId : String) : List Appointment :=
  store.map (fun a =>
    if a.appointmentId == appointmentId then { a with status := "cancelled" } else a)

/-- `POST /appointments/:id/cancel` (the hard-delete variant) and
`DELETE /appointments/:appointmentId`: `deleteOne` removes at most one
matching document. -/
def cancelAppointmentDelete (store : List Appointment)
    (appointmentId : String) : List Appointment :=
  store.eraseP (fun a => a.appointmentId == appointmentId)

/-! ### The availability handler (`POST /doctors/:doctorId/availability`) -/

/-- Per-weekday availability template entry `{available, start, end}`.  The
`"HH:MM"` strings are carried as parsed hour/minute pairs; `none` models a
missing or empty string (both falsy for the `!dayAvailability.start` check). -/
structure DayAvailability where
  available : Bool
  start : Option (Nat × Nat)
  «end» : Option (Nat × Nat)
  deriving Repr, DecidableEq

/-- Doctor record fields read by the availability handler.  `availability`
maps a lowercase weekday name to its template entry (`none` models a day
absent from the schedule). -/
structure Doctor where
  doctorId : String
  name : String
  calendarId : Option String
  availability : String → Option DayAvailability

/-- External calls the availability handler can issue: the calendar
free/busy query (`getFreeBusy`) and the appointment-store query
(`Appointment.find`). -/
inductive ExtCall where
  | freeBusy (calendarId : String)
  | findAppointments (doctorId : String) (date : String)
  deriving Repr, DecidableEq

/-- Response of the availability handler (the fields the claims are about). -/
structure AvailabilityResponse where
  status : Nat
  success : Bool
  availableSlots : List Slot
  message : Option String
  deriving Repr, DecidableEq

/-- The day-schedule part of `POST /doctors/:doctorId/availability` (after
date validation and doctor lookup): looks up the weekday entry, returns an
empty slot list when the day is absent or marked unavailable, otherwise
fetches busy periods (only when a `calendarId` is configured; `busySource`
abstracts `getFreeBusy`) and the doctor's non-cancelled appointments for the
date (`appointmentSource`), and generates the slots.  The second component
records every external call made, in order. -/
def availabilityHandler (doctor : Doctor) (date : String) (dayOfWeek : String)
    (dayBase : Int) (busySource : String → List BusyPeriod)
    (appointmentSource : String → String → List Appointment) :
    AvailabilityResponse × List ExtCall :=
  match doctor.availability dayOfWeek with
  | none =>
    ({ status := 200, success := true, availableSlots := [],
       message := some ("No schedule configured for " ++ dayOfWeek) }, [])
  | some dayAvailability =>
    if !dayAvailability.available then
      ({ status := 200, success := true, availableSlots := [],
         message := some "Doctor not available on this day" }, [])
    else
      match dayAvailability.start, dayAvailability.«end» with
      | some (startHour, startMinute), some (endHour, endMinute) =>
        let busyCalls : List ExtCall :=
          match doctor.calendarId with
          | some cid => [ExtCall.freeBusy cid]
          | none => []
        let busyPeriods : List BusyPeriod :=
          match doctor.calendarId with
          | some cid => busySource cid
          | none => []
        let existingAppointments := appointmentSource doctor.doctorId date
        let availableSlots := generateAvailableSlots dayBase
          startHour startMinute endHour endMinute busyPeriods existingAppointments
        ({ status := 200, success := true, availableSlots := availableSlots,
           message := none },
         busyCalls ++ [ExtCall.findAppointments doctor.doctorId date])
      | _, _ =>
        ({ status := 400, success := false, availableSlots := [],
           message := some "Doctor working hours not properly configured" }, [])

/-! ### Patient registration (`POST /patients/register` and the
`POST /patients` upsert route) -/

structure OTPEntry where
  otp : String
  expiryTime : Int
  attempts : Nat
  deriving Repr, DecidableEq

/-- The in-memory `otpStore`. -/
def OTPStore : Type := String → Option OTPEntry

/-- `OTP_EXPIRY_TIME = 5 * 60 * 1000` milliseconds. -/
def OTP_EXPIRY_TIME : Int := 5 * 60 * 1000

/-- `otpStore.delete(email)`. -/
def eraseOTP (store : OTPStore) (email : String) : OTPStore :=
  fun e => if e = email then none else store e

/-- `storeOTP(email, otp)`: records the code with a 5-minute expiry and a
zeroed attempt counter. -/
def storeOTP (store : OTPStore) (email otp : String) (now : Int) : OTPStore :=
  fun e =>
    if e = email then
      some { otp := otp, expiryTime := now + OTP_EXPIRY_TIME, attempts := 0 }
    else store e

/-- Result object of `verifyOTP`; `remainingAttempts` is `none` for the JS
`null`. -/
structure VerifyResult where
  valid : Bool
  message : String
  remainingAttempts : Option Nat
  deriving Repr, DecidableEq

/-- `verifyOTP(email, otp)` from `src/otpService.js`, returning the result
together with the updated store. -/
def verifyOTP (store : OTPStore) (email otp : String) (now : Int) :
    VerifyResult × OTPStore :=
  match store email with
  | none =>
    ({ valid := false,
       message := "OTP not found or expired. Please request a new OTP.",
       remainingAttempts := some 0 }, store)
  | some storedData =>
    if now > storedData.expiryTime then
      ({ valid := false, message := "OTP has expired. Please request a new OTP.",
         remainingAttempts := some 0 }, eraseOTP store email)
    else if storedData.attempts ≥ 5 then
      ({ valid := false,
         message := "Maximum OTP verification attempts exceeded. Please request a new OTP.",
         remainingAttempts := some 0 }, eraseOTP store email)
    else if storedData.otp ≠ otp then
      ({ valid := false, message := "Invalid OTP",
         remainingAttempts := some (5 - (storedData.attempts + 1)) },
       fun e =>
         if e = email then some { storedData with attempts := storedData.attempts + 1 }
         else store e)
    else
      ({ valid := true, message := "OTP verified successfully",
         remainingAttempts := none }, eraseOTP store email)

/-- A sequence of `verifyOTP` calls for one contact address (each call is a
submitted code together with its `Date.now()`), with no intervening
re-issue; returns the results in order and the final store. -/
def verifyRunOn (store : OTPStore) (email : String) :
    List (String × Int) → List VerifyResult × OTPStore
  | [] => ([], store)
  | (otp, now) :: calls =>
    let step := verifyOTP store email otp now
    let rest := verifyRunOn step.2 email calls
    (step.1 :: rest.1, rest.2)

/-! ## Theorems -/

theorem mkSlot_startISO (dayBase : Int) (m : Nat) :
    (mkSlot dayBase m).startISO = dayBase + (m : Int) * 60000 := rfl

theorem mkSlot_endISO (dayBase : Int) (m : Nat) :
    (mkSlot dayBase m).endISO = dayBase + ((m + 30 : Nat) : Int) * 60000 := rfl

/-- The conflict test applied to the candidate slot starting at minute `m`. -/
def candidateConflicts (dayBase : Int) (busyPeriods : List BusyPeriod)
    (existingAppointments : List Appointment) (m : Nat) : Bool :=
  isSlotConflicting (dayBase + (m : Int) * 60000)
    (dayBase + ((m + 30 : Nat) : Int) * 60000) busyPeriods existingAppointments

/-- Closed form of the generator loop: with enough fuel it returns exactly
the 30-minute candidates `current, current + 30, …` that fit before
`endMinutes`, those that conflict filtered out, each rendered by `mkSlot`. -/
theorem genSlotsLoop_eq (dayBase : Int) (busyPeriods : List BusyPeriod)
    (existingAppointments : List Appointment) :
    ∀ fuel currentMinutes endMinutes,
      (endMinutes - currentMinutes) / 30 ≤ fuel →
      genSlotsLoop dayBase busyPeriods existingAppointments fuel
          currentMinutes endMinutes =
        (((List.range ((endMinutes - currentMinutes) / 30)).map
            (fun i => currentMinutes + 30 * i)).filter
          (fun m => ! candidateConflicts dayBase busyPeriods existingAppointments m)).map
          (mkSlot dayBase) := by
  intro fuel
  induction fuel with
  | zero =>
    intro current e h
    have h0 : (e - current) / 30 = 0 := Nat.le_zero.mp h
    simp [genSlotsLoop, h0]
  | succ fuel ih =>
    intro current e h
    by_cases hc : current + 30 ≤ e
    · have h30 : e - current = (e - (current + 30)) + 30 := by omega
      have hk : (e - current) / 30 = (e - (current + 30)) / 30 + 1 := by
        rw [h30, Nat.add_div_right _ (by norm_num)]
      have hfuel : (e - (current + 30)) / 30 ≤ fuel := by omega
      have hmaps :
          (List.range ((e - current) / 30)).map (fun i => current + 30 * i) =
            current ::
              (List.range ((e - (current + 30)) / 30)).map
                (fun i => (current + 30) + 30 * i) := by
        rw [hk, List.range_succ_eq_map, List.map_cons, List.map_map]
        refine congrArg₂ _ (by omega) (List.map_congr_left ?_)
        intro i _
        simp [Function.comp]
        omega
      rw [hmaps]
      simp only [genSlotsLoop, hc, if_true]
      rw [ih (current + 30) e hfuel]
      cases hb : candidateConflicts dayBase busyPeriods existingAppointments current with
      | false =>
        have hb' : isSlotConflicting (mkSlot dayBase current).startISO
            (mkSlot dayBase current).endISO busyPeriods existingAppointments = false := hb
        simp [hb', hb]
      | true =>
        have hb' : isSlotConflicting (mkSlot dayBase current).startISO
            (mkSlot dayBase current).endISO busyPeriods existingAppointments = true := hb
        simp [hb', hb]
    · have h0 : (e - current) / 30 = 0 := by
        apply Nat.div_eq_of_lt
        omega
      simp [genSlotsLoop, hc, h0]

/-- Closed form of `generateAvailableSlots` (the fuel passed by the wrapper
is always sufficient). -/
theorem generateAvailableSlots_eq (dayBase : Int)
    (startHour startMinute endHour endMinute : Nat)
    (busyPeriods : List BusyPeriod) (existingAppointments : List Appointment) :
    generateAvailableSlots dayBase startHour startMinute endHour endMinute
        busyPeriods existingAppointments =
      (((List.range
            (((endHour * 60 + endMinute) - (startHour * 60 + startMinute)) / 30)).map
          (fun i => (startHour * 60 + startMinute) + 30 * i)).filter
        (fun m => ! candidateConflicts dayBase busyPeriods existingAppointments m)).map
        (mkSlot dayBase) := by
  apply genSlotsLoop_eq
  calc ((endHour * 60 + endMinute) - (startHour * 60 + startMinute)) / 30
      ≤ (endHour * 60 + endMinute) / 30 := Nat.div_le_div_right (by omega)
    _ ≤ endHour * 60 + endMinute := Nat.div_le_self _ _

/-! ### Round-trip analysis of the display-label parsing -/

theorem pad2_data (n : Nat) :
    (pad2 n).data = [Char.ofNat (48 + n / 10), Char.ofNat (48 + n % 10)] := rfl

theorem digitChar_spec : ∀ d < 10,
    isDigitChar (Char.ofNat (48 + d)) = true ∧
    digitVal (Char.ofNat (48 + d)) = d := by decide

theorem formatTimeDisplay_data (hour minute : Nat) :
    (formatTimeDisplay hour minute).data =
      (pad2 (displayHour hour)).data ++ ':' ::
        ((pad2 minute).data ++ ' ' ::
          (if 12 ≤ hour then 'P' else 'A') :: 'M' :: []) := by
  have hcolon : (":" : String).data = [':'] := rfl
  have hspace : (" " : String).data = [' '] := rfl
  have hPM : ("PM" : String).data = ['P', 'M'] := rfl
  have hAM : ("AM" : String).data = ['A', 'M'] := rfl
  by_cases h : 12 ≤ hour
  · simp only [formatTimeDisplay, ge_iff_le, h, if_true, if_pos,
      String.data_append, hcolon, hspace, hPM, List.append_assoc,
      List.cons_append, List.nil_append]
  · simp only [formatTimeDisplay, ge_iff_le, h, if_false, if_neg,
      not_false_iff, String.data_append, hcolon, hspace, hAM,
      List.append_assoc, List.cons_append, List.nil_append]

theorem isSpaceChar_sp : isSpaceChar ' ' = true := rfl

theorem isSpaceChar_P : isSpaceChar 'P' = false := rfl

theorem isSpaceChar_A : isSpaceChar 'A' = false := rfl

theorem matchAmPm_P (t : List Char) : matchAmPm ('P' :: 'M' :: t) = some true := rfl

theorem matchAmPm_A (t : List Char) : matchAmPm ('A' :: 'M' :: t) = some false := rfl

/-- The regex matches at the head of a rendered `"HH:MM AM"`/`"HH:MM PM"`
fragment and recovers the two rendered numbers. -/
theorem matchTimeAt_display (a b : Nat) (ha : a < 100) (hb : b < 100)
    (pm : Bool) (t : List Char) :
    matchTimeAt ((pad2 a).data ++ ':' ::
        ((pad2 b).data ++ ' ' :: (if pm then 'P' else 'A') :: 'M' :: t)) =
      some (a, b, pm) := by
  obtain ⟨h1, h2⟩ := digitChar_spec (a / 10) (by omega)
  obtain ⟨h3, h4⟩ := digitChar_spec (a % 10) (by omega)
  obtain ⟨h5, h6⟩ := digitChar_spec (b / 10) (by omega)
  obtain ⟨h7, h8⟩ := digitChar_spec (b % 10) (by omega)
  cases pm <;>
    simp only [pad2_data, if_true, if_false, Bool.false_eq_true,
      List.cons_append, List.nil_append, matchTimeAt, h1, h3, h5, h7,
      beq_self_eq_true, Bool.and_self, Bool.and_true, Bool.true_and,
      if_pos, dropSpaces, isSpaceChar_sp, isSpaceChar_P, isSpaceChar_A,
      matchAmPm_P, matchAmPm_A, h2, h4, h6, h8, Option.some.injEq,
      Prod.mk.injEq, and_true] <;>
    exact ⟨by omega, by omega⟩

/-- The leftmost regex match over such a fragment is the one at its head. -/
theorem timeMatch_label (a b : Nat) (ha : a < 100) (hb : b < 100)
    (pm : Bool) (t : List Char) :
    timeMatch ((pad2 a).data ++ ':' ::
        ((pad2 b).data ++ ' ' :: (if pm then 'P' else 'A') :: 'M' :: t)) =
      some (a, b, pm) := by
  have hm := matchTimeAt_display a b ha hb pm t
  simp only [pad2_data, List.cons_append, List.nil_append] at hm ⊢
  rw [timeMatch, hm]

/-- What the booking handler reconstructs from the label of the generated
slot starting at minute-of-day `m`: the start minutes are always recovered
exactly; the reconstructed end is `m + 30` when `m` is on a half-hour
boundary and `(m / 60) * 60 + 30` otherwise. -/
theorem parseTimeSlot_label (dayBase : Int) (m : Nat) (hm : m + 30 ≤ 1440) :
    parseTimeSlot (mkSlot dayBase m).time =
      some (m, if m % 60 = 30 then m + 30 else (m / 60) * 60 + 30) := by
  have hdh : displayHour (m / 60) < 100 := by
    unfold displayHour
    split_ifs <;> omega
  have hmn : m % 60 < 100 := by omega
  have hdash : (" - " : String).data = [' ', '-', ' '] := rfl
  have htime : (mkSlot dayBase m).time =
      formatTimeDisplay (m / 60) (m % 60) ++ " - " ++
        formatTimeDisplay ((m + 30) / 60) ((m + 30) % 60) := rfl
  have h24 : m / 60 < 24 := by omega
  by_cases h12 : 12 ≤ m / 60
  · have hmt := timeMatch_label (displayHour (m / 60)) (m % 60) hdh hmn true
      (' ' :: '-' :: ' ' ::
        (formatTimeDisplay ((m + 30) / 60) ((m + 30) % 60)).data)
    simp only [if_true] at hmt
    unfold parseTimeSlot
    rw [htime, String.data_append, String.data_append, formatTimeDisplay_data,
      hdash]
    simp only [h12, if_true, if_pos, List.append_assoc, List.cons_append,
      List.nil_append]
    rw [hmt]
    have hrec : (if true && decide (displayHour (m / 60) < 12) then
        displayHour (m / 60) + 12
      else if !true && decide (displayHour (m / 60) = 12) then 0
      else displayHour (m / 60)) = m / 60 := by
      unfold displayHour
      split_ifs <;> simp_all <;> omega
    simp only [Bool.true_and, Bool.not_true, Bool.false_and, if_false,
      Bool.false_eq_true]
    split_ifs with hlt hm30 hm30 <;> unfold displayHour at hlt ⊢ <;>
      split_ifs at hlt ⊢ <;> simp_all <;> omega
  · have hmt := timeMatch_label (displayHour (m / 60)) (m % 60) hdh hmn false
      (' ' :: '-' :: ' ' ::
        (formatTimeDisplay ((m + 30) / 60) ((m + 30) % 60)).data)
    simp only [if_false, Bool.false_eq_true, if_neg, not_false_iff] at hmt
    unfold parseTimeSlot
    rw [htime, String.data_append, String.data_append, formatTimeDisplay_data,
      hdash]
    simp only [h12, if_false, if_neg, not_false_iff, List.append_assoc,
      List.cons_append, List.nil_append]
    rw [hmt]
    simp only [Bool.false_and, Bool.not_false, Bool.true_and, if_false,
      Bool.false_eq_true]
    split_ifs with heq hm30 hm30 <;> unfold displayHour at * <;>
      split_ifs at * <;> simp_all <;> omega

/-! ### Claim C1 -/

/-- C1: for a working window given as `dayStart = startHour*60 + startMinute`
and `dayEnd = endHour*60 + endMinute` minute offsets, the candidate slots of
`generateAvailableSlots` (observable in full when no busy interval and no
existing appointment filters anything) start at `dayStart` and advance by
exactly 30 minutes while `current + 30 ≤ dayEnd`: the `i`-th slot starts at
`dayStart + 30*i` and ends 30 minutes later, so the candidates tile
`[dayStart, dayEnd)` left-to-right with no gaps or overlaps, the trailing
remainder shorter than 30 minutes is dropped, and an empty or inverted
window (`dayStart ≥ dayEnd`) yields the empty sequence for every busy/
appointment input. -/
theorem slot_generation_tiles_window (dayBase : Int)
    (startHour startMinute endHour endMinute : Nat) :
    ((generateAvailableSlots dayBase startHour startMinute endHour endMinute
          [] []).map Slot.startISO =
      (List.range
          (((endHour * 60 + endMinute) - (startHour * 60 + startMinute)) / 30)).map
        (fun i =>
          dayBase + (((startHour * 60 + startMinute) + 30 * i : Nat) : Int) * 60000)) ∧
    (∀ slot ∈ generateAvailableSlots dayBase startHour startMinute endHour
        endMinute [] [],
      slot.endISO = slot.startISO + 30 * 60000) ∧
    (endHour * 60 + endMinute ≤ startHour * 60 + startMinute →
      ∀ busyPeriods existingAppointments,
        generateAvailableSlots dayBase startHour startMinute endHour endMinute
          busyPeriods existingAppointments = []) ∧
    ((endHour * 60 + endMinute) -
        ((startHour * 60 + startMinute) +
          30 * (((endHour * 60 + endMinute) - (startHour * 60 + startMinute)) / 30))
      < 30) := by
  refine ⟨?_, ?_, ?_, by omega⟩
  · rw [generateAvailableSlots_eq]
    have hfilter :
        ((List.range
            (((endHour * 60 + endMinute) - (startHour * 60 + startMinute)) / 30)).map
          (fun i => (startHour * 60 + startMinute) + 30 * i)).filter
            (fun m => ! candidateConflicts dayBase [] [] m) =
        (List.range
            (((endHour * 60 + endMinute) - (startHour * 60 + startMinute)) / 30)).map
          (fun i => (startHour * 60 + startMinute) + 30 * i) := by
      apply List.filter_eq_self.mpr
      intro m _
      rfl
    rw [hfilter, List.map_map, List.map_map]
    apply List.map_congr_left
    intro i _
    simp [Function.comp, mkSlot_startISO]
  · intro slot hmem
    rw [generateAvailableSlots_eq] at hmem
    rcases List.mem_map.mp hmem with ⟨m, _, rfl⟩
    rw [mkSlot_startISO, mkSlot_endISO]
    push_cast
    ring
  · intro hle busyPeriods existingAppointments
    rw [generateAvailableSlots_eq]
    have h0 :
        ((endHour * 60 + endMinute) - (startHour * 60 + startMinute)) / 30 = 0 := by
      omega
    rw [h0]
    simp

theorem slot_generation_tiles_window_witness :
    (generateAvailableSlots 0 10 0 9 0 [] [] = []) ∧
    ((generateAvailableSlots 0 9 0 10 0 [] []).map Slot.startISO =
      [32400000, 34200000]) := by
  constructor
  · exact (slot_generation_tiles_window 0 10 0 9 0).2.2.1 (by norm_num) [] []
  · rw [(slot_generation_tiles_window 0 9 0 10 0).1]
    decide

/-! ### Claim C5 -/

/-- C5: the overlap predicate used for conflict checking is exactly
`aStart < bEnd && aEnd > bStart`; it is symmetric and exclusive at shared
endpoints (in either order), so touching intervals never conflict, while
properly intersecting intervals such as `[9:00, 9:30)` and `[9:15, 9:45)`
(in minutes: `[540, 570)` and `[555, 585)`, scaled to instants at will) do
conflict, and `[9:00, 9:30)` versus `[9:30, 10:00)` does not. -/
theorem overlaps_spec (aStart aEnd bStart bEnd : Int) :
    (overlaps aStart aEnd bStart bEnd =
      (decide (aStart < bEnd) && decide (aEnd > bStart))) ∧
    (overlaps aStart aEnd bStart bEnd = overlaps bStart bEnd aStart aEnd) ∧
    (aEnd = bStart → overlaps aStart aEnd bStart bEnd = false) ∧
    (bEnd = aStart → overlaps aStart aEnd bStart bEnd = false) ∧
    overlaps 540 570 555 585 = true ∧
    overlaps 540 570 570 600 = false := by
  refine ⟨rfl, ?_, ?_, ?_, by decide, by decide⟩
  · unfold overlaps
    rw [Bool.and_comm]
  · intro h
    subst h
    simp [overlaps]
  · intro h
    subst h
    simp [overlaps]

theorem overlaps_spec_witness :
    overlaps 540 570 570 600 = false ∧ overlaps 540 570 555 585 = true :=
  ⟨(overlaps_spec 540 570 570 600).2.2.1 rfl,
   (overlaps_spec 540 570 555 585).2.2.2.2.1⟩

/-! ### Claim C10 -/

/-- C10: the output of `generateAvailableSlots` is exactly the candidate
tiling with the conflicting candidates omitted (never tagged): every
returned slot passes the non-conflict check against the supplied busy
intervals and existing appointments, and the returned start instants form a
strictly increasing (chronological) sublist of the candidate start
instants. -/
theorem generated_slots_all_available (dayBase : Int)
    (startHour startMinute endHour endMinute : Nat)
    (busyPeriods : List BusyPeriod) (existingAppointments : List Appointment) :
    (generateAvailableSlots dayBase startHour startMinute endHour endMinute
        busyPeriods existingAppointments =
      (((List.range
            (((endHour * 60 + endMinute) - (startHour * 60 + startMinute)) / 30)).map
          (fun i => (startHour * 60 + startMinute) + 30 * i)).filter
        (fun m => ! candidateConflicts dayBase busyPeriods existingAppointments m)).map
        (mkSlot dayBase)) ∧
    (∀ slot ∈ generateAvailableSlots dayBase startHour startMinute endHour
        endMinute busyPeriods existingAppointments,
      isSlotConflicting slot.startISO slot.endISO busyPeriods
        existingAppointments = false) ∧
    ((generateAvailableSlots dayBase startHour startMinute endHour endMinute
        busyPeriods existingAppointments).map Slot.startISO).Sublist
      (((List.range
            (((endHour * 60 + endMinute) - (startHour * 60 + startMinute)) / 30)).map
          (fun i => (startHour * 60 + startMinute) + 30 * i)).map
        (fun (m : Nat) => dayBase + (m : Int) * 60000)) ∧
    ((generateAvailableSlots dayBase startHour startMinute endHour endMinute
        busyPeriods existingAppointments).map Slot.startISO).Pairwise (· < ·) := by
  have hmap : ∀ l : List Nat,
      ((l.map (mkSlot dayBase)).map Slot.startISO) =
        l.map (fun (m : Nat) => dayBase + (m : Int) * 60000) := by
    intro l
    rw [List.map_map]
    apply List.map_congr_left
    intro m _
    simp [Function.comp, mkSlot_startISO]
  refine ⟨generateAvailableSlots_eq dayBase startHour startMinute endHour
    endMinute busyPeriods existingAppointments, ?_, ?_, ?_⟩
  · intro slot hmem
    rw [generateAvailableSlots_eq] at hmem
    rcases List.mem_map.mp hmem with ⟨m, hm, rfl⟩
    have := List.of_mem_filter hm
    have hcc : candidateConflicts dayBase busyPeriods existingAppointments m
        = false := by
      simpa using this
    exact hcc
  · rw [generateAvailableSlots_eq, hmap]
    exact (List.filter_sublist _).map _
  · rw [generateAvailableSlots_eq, hmap]
    rw [List.pairwise_map]
    apply List.Pairwise.filter
    rw [List.pairwise_map]
    apply List.Pairwise.imp ?_ (List.pairwise_lt_range _)
    intro a b hab
    have : (30 : Int) * (a : Int) < 30 * (b : Int) := by omega
    omega

theorem generated_slots_all_available_witness :
    isSlotConflicting (mkSlot 0 570).startISO (mkSlot 0 570).endISO
      [⟨32400000, 34200000⟩] [] = false :=
  (generated_slots_all_available 0 9 0 11 0 [⟨32400000, 34200000⟩] []).2.1
    (mkSlot 0 570) (by decide)

/-! ### Claim C4 -/

/-- C4 is false as stated, on both of its sentences.  Round trip: the
working window 09:15-10:15 is legal (`start < end`), and its first generated
slot 09:15-09:45 carries the label `"09:15 AM - 09:45 AM"`, but the booking
handler parses that label back to the interval 09:15-09:30 (minute offsets
555-570): the reconstructed end instant differs from the generator's
`endISO` (09:45, offset 585).  Validation: the string `"09:00 AM x"` does
not match the label format `"HH:MM AM/PM - HH:MM AM/PM"`, yet the handler
does not fail with a ValidationError — the regex finds the one time it
needs, the request parses to 09:00-09:30 and is booked (status 200, one
appointment persisted). -/
theorem label_roundtrip_counterexample :
    mkSlot 0 555 ∈ generateAvailableSlots 0 9 15 10 15 [] [] ∧
    (mkSlot 0 555).time = "09:15 AM - 09:45 AM" ∧
    parseTimeSlot "09:15 AM - 09:45 AM" = some (555, 570) ∧
    (mkSlot 0 555).endISO = 35100000 ∧
    (0 : Int) + (570 : Int) * 60000 ≠ (mkSlot 0 555).endISO ∧
    parseTimeSlot "09:00 AM x" = some (540, 570) ∧
    (bookAppointment [] "D-1" "A-1" "P-1" 0 "09:00 AM x" true
        (Except.ok "mid")).1.status = 200 ∧
    (bookAppointment [] "D-1" "A-1" "P-1" 0 "09:00 AM x" true
        (Except.ok "mid")).1.success = true ∧
    (bookAppointment [] "D-1" "A-1" "P-1" 0 "09:00 AM x" true
        (Except.ok "mid")).2.length = 1 := by decide

/-- C4 (amended): for every slot produced by `generateAvailableSlots` within
a valid day window, parsing the slot's display label in the booking handler
reconstructs exactly the start instant the generator assigned, and also the
end instant whenever the slot starts on a half-hour boundary (minute-of-hour
0 or 30) — which holds for every window whose `start` is on a half-hour
boundary.  The handler fails with the 400 validation response (changing
nothing) exactly when the regex finds no `"HH:MM AM/PM"` time anywhere in
the submitted `timeSlot`: on a parse failure it returns 400 and leaves the
store unchanged, and on a parse success it never returns 400 but proceeds to
the conflict check, answering 409 or a 200 success — even when the string is
not a full `"HH:MM AM/PM - HH:MM AM/PM"` label. -/
theorem label_roundtrip_amended (dayBase : Int)
    (startHour startMinute endHour endMinute : Nat)
    (busyPeriods : List BusyPeriod) (existingAppointments : List Appointment)
    (hday : endHour * 60 + endMinute ≤ 1440) :
    (∀ slot ∈ generateAvailableSlots dayBase startHour startMinute endHour
        endMinute busyPeriods existingAppointments,
      ∃ startMinutes endMinutes,
        parseTimeSlot slot.time = some (startMinutes, endMinutes) ∧
        dayBase + (startMinutes : Int) * 60000 = slot.startISO ∧
        ((startMinutes % 60 = 0 ∨ startMinutes % 60 = 30) →
          dayBase + (endMinutes : Int) * 60000 = slot.endISO)) ∧
    (∀ timeSlot : String, parseTimeSlot timeSlot = none →
      ∀ (store : List Appointment) (doctorId newAppointmentId patientId : String)
        (patientHasEmail : Bool) (emailOutcome : Except String String),
        bookAppointment store doctorId newAppointmentId patientId dayBase
            timeSlot patientHasEmail emailOutcome =
          ({ status := 400, success := false,
             error := some "Invalid time slot format",
             appointment := none, emailStatus := none }, store)) ∧
    (∀ (timeSlot : String) (startMinutes endMinutes : Nat),
      parseTimeSlot timeSlot = some (startMinutes, endMinutes) →
      ∀ (store : List Appointment) (doctorId newAppointmentId patientId : String)
        (patientHasEmail : Bool) (emailOutcome : Except String String),
        (bookAppointment store doctorId newAppointmentId patientId dayBase
            timeSlot patientHasEmail emailOutcome).1.status = 409 ∨
        ((bookAppointment store doctorId newAppointmentId patientId dayBase
            timeSlot patientHasEmail emailOutcome).1.status = 200 ∧
         (bookAppointment store doctorId newAppointmentId patientId dayBase
            timeSlot patientHasEmail emailOutcome).1.success = true)) := by
  refine ⟨?_, ?_, ?_⟩
  · intro slot hmem
    rw [generateAvailableSlots_eq] at hmem
    rcases List.mem_map.mp hmem with ⟨m, hm, rfl⟩
    have hcand := List.mem_filter.mp hm
    rcases List.mem_map.mp hcand.1 with ⟨i, hi, rfl⟩
    have hik : i < ((endHour * 60 + endMinute) - (startHour * 60 + startMinute)) / 30 :=
      List.mem_range.mp hi
    have hm30 : ((startHour * 60 + startMinute) + 30 * i) + 30 ≤ 1440 := by
      omega
    refine ⟨(startHour * 60 + startMinute) + 30 * i,
      _, parseTimeSlot_label dayBase _ hm30, ?_, ?_⟩
    · rw [mkSlot_startISO]
    · intro hb
      rw [mkSlot_endISO]
      rcases hb with hb | hb
      · rw [if_neg (by omega)]
        have : (((startHour * 60 + startMinute) + 30 * i) / 60) * 60 + 30 =
            ((startHour * 60 + startMinute) + 30 * i) + 30 := by
          omega
        rw [this]
      · rw [if_pos hb]
  · intro timeSlot hparse store doctorId newAppointmentId patientId
      patientHasEmail emailOutcome
    unfold bookAppointment
    rw [hparse]
  · intro timeSlot startMinutes endMinutes hparse store doctorId
      newAppointmentId patientId patientHasEmail emailOutcome
    cases hfind : findConflicting store doctorId
        (dayBase + (startMinutes : Int) * 60000)
        (dayBase + (endMinutes : Int) * 60000) with
    | some a =>
      left
      simp only [bookAppointment, hparse, hfind]
    | none =>
      right
      constructor <;> simp only [bookAppointment, hparse, hfind]

theorem label_roundtrip_amended_witness :
    (∃ startMinutes endMinutes,
      parseTimeSlot (mkSlot 0 540).time = some (startMinutes, endMinutes) ∧
      (0 : Int) + (startMinutes : Int) * 60000 = (mkSlot 0 540).startISO ∧
      ((startMinutes % 60 = 0 ∨ startMinutes % 60 = 30) →
        (0 : Int) + (endMinutes : Int) * 60000 = (mkSlot 0 540).endISO)) ∧
    bookAppointment [] "D-1" "A-1" "P-1" 0 "hello" true (Except.ok "mid") =
      ({ status := 400, success := false,
         error := some "Invalid time slot format",
         appointment := none, emailStatus := none }, []) ∧
    ((bookAppointment [] "D-1" "A-3" "P-3" 0 "09:00 AM x" true
        (Except.ok "mid")).1.status = 409 ∨
      ((bookAppointment [] "D-1" "A-3" "P-3" 0 "09:00 AM x" true
          (Except.ok "mid")).1.status = 200 ∧
       (bookAppointment [] "D-1" "A-3" "P-3" 0 "09:00 AM x" true
          (Except.ok "mid")).1.success = true)) :=
  ⟨(label_roundtrip_amended 0 9 0 10 0 [] [] (by norm_num)).1
      (mkSlot 0 540) (by decide),
   (label_roundtrip_amended 0 9 0 10 0 [] [] (by norm_num)).2.1
      "hello" (by decide) [] "D-1" "A-1" "P-1" true (Except.ok "mid"),
   (label_roundtrip_amended 0 9 0 10 0 [] [] (by norm_num)).2.2
      "09:00 AM x" 540 570 (by decide) [] "D-1" "A-3" "P-3" true
      (Except.ok "mid")⟩

/-! ### Claim C3 -/

/-- C3: whenever the chosen interval overlaps some existing non-cancelled
appointment of the same doctor at commit time, the booking handler answers
the 409 conflict response ("This time slot is no longer available") and the
appointment store is left unchanged: no appointment is created. -/
theorem conflict_rejected_store_unchanged (store : List Appointment)
    (doctorId newAppointmentId patientId : String) (dayBase : Int)
    (timeSlot : String) (patientHasEmail : Bool)
    (emailOutcome : Except String String) (startMinutes endMinutes : Nat)
    (hparse : parseTimeSlot timeSlot = some (startMinutes, endMinutes))
    (a : Appointment) (ha : a ∈ store) (hdoc : a.doctorId = doctorId)
    (hstatus : a.status ≠ "cancelled")
    (hov : overlaps a.startDateTime a.endDateTime
      (dayBase + (startMinutes : Int) * 60000)
      (dayBase + (endMinutes : Int) * 60000) = true) :
    bookAppointment store doctorId newAppointmentId patientId dayBase timeSlot
        patientHasEmail emailOutcome =
      ({ status := 409, success := false,
         error := some "This time slot is no longer available",
         appointment := none, emailStatus := none }, store) := by
  have hsome : (findConflicting store doctorId
      (dayBase + (startMinutes : Int) * 60000)
      (dayBase + (endMinutes : Int) * 60000)).isSome := by
    unfold findConflicting
    rw [List.find?_isSome]
    exact ⟨a, ha, by simp [hdoc, hstatus, hov]⟩
  rcases Option.isSome_iff_exists.mp hsome with ⟨b, hb⟩
  simp only [bookAppointment, hparse, hb]

theorem conflict_rejected_store_unchanged_witness :
    bookAppointment [⟨"A-1", "D-1", "P-1", 32400000, 34200000, "confirmed"⟩]
        "D-1" "A-2" "P-2" 0 "09:00 AM - 09:30 AM" true (Except.ok "mid") =
      ({ status := 409, success := false,
         error := some "This time slot is no longer available",
         appointment := none, emailStatus := none },
       [⟨"A-1", "D-1", "P-1", 32400000, 34200000, "confirmed"⟩]) :=
  conflict_rejected_store_unchanged
    [⟨"A-1", "D-1", "P-1", 32400000, 34200000, "confirmed"⟩]
    "D-1" "A-2" "P-2" 0 "09:00 AM - 09:30 AM" true (Except.ok "mid") 540 570
    (by decide) ⟨"A-1", "D-1", "P-1", 32400000, 34200000, "confirmed"⟩
    (by decide) rfl (by decide) (by decide)

/-! ### Claim C7 -/

/-- C7: when the booking passes the conflict check and the confirmation
email subsequently fails, the appointment is still appended to the store
with status `confirmed` and the handler returns the 200 success response,
reporting the failure only through the soft `emailStatus` field. -/
theorem email_failure_still_persists (store : List Appointment)
    (doctorId newAppointmentId patientId : String) (dayBase : Int)
    (timeSlot : String) (errMsg : String) (startMinutes endMinutes : Nat)
    (hparse : parseTimeSlot timeSlot = some (startMinutes, endMinutes))
    (hfree : findConflicting store doctorId
      (dayBase + (startMinutes : Int) * 60000)
      (dayBase + (endMinutes : Int) * 60000) = none) :
    (bookAppointment store doctorId newAppointmentId patientId dayBase
        timeSlot true (Except.error errMsg)).1.status = 200 ∧
    (bookAppointment store doctorId newAppointmentId patientId dayBase
        timeSlot true (Except.error errMsg)).1.success = true ∧
    (bookAppointment store doctorId newAppointmentId patientId dayBase
        timeSlot true (Except.error errMsg)).1.error = none ∧
    (bookAppointment store doctorId newAppointmentId patientId dayBase
        timeSlot true (Except.error errMsg)).1.emailStatus =
      some (Except.error errMsg) ∧
    ∃ appointment,
      (bookAppointment store doctorId newAppointmentId patientId dayBase
          timeSlot true (Except.error errMsg)).1.appointment =
        some appointment ∧
      appointment.status = "confirmed" ∧
      appointment.doctorId = doctorId ∧
      appointment.startDateTime = dayBase + (startMinutes : Int) * 60000 ∧
      appointment.endDateTime = dayBase + (endMinutes : Int) * 60000 ∧
      (bookAppointment store doctorId newAppointmentId patientId dayBase
          timeSlot true (Except.error errMsg)).2 = store ++ [appointment] := by
  refine ⟨?_, ?_, ?_, ?_,
    ⟨{ appointmentId := newAppointmentId, doctorId := doctorId,
       patientId := patientId,
       startDateTime := dayBase + (startMinutes : Int) * 60000,
       endDateTime := dayBase + (endMinutes : Int) * 60000,
       status := "confirmed" }, ?_, rfl, rfl, rfl, rfl, ?_⟩⟩ <;>
  simp [bookAppointment, hparse, hfree]

theorem email_failure_still_persists_witness :
    (bookAppointment [] "D-1" "A-1" "P-1" 0 "09:00 AM - 09:30 AM" true
        (Except.error "smtp down")).1.success = true ∧
    (bookAppointment [] "D-1" "A-1" "P-1" 0 "09:00 AM - 09:30 AM" true
        (Except.error "smtp down")).1.emailStatus =
      some (Except.error "smtp down") := by
  have h := email_failure_still_persists [] "D-1" "A-1" "P-1" 0
    "09:00 AM - 09:30 AM" "smtp down" 540 570 (by decide) rfl
  exact ⟨h.2.1, h.2.2.2.1⟩

/-! ### Claim C2 -/

/-- Two appointments double-book a doctor when they belong to the same
doctor, neither is cancelled, and their half-open intervals overlap (under
the code's overlap predicate). -/
def apptOverlap (a b : Appointment) : Bool :=
  a.doctorId == b.doctorId && a.status != "cancelled" && b.status != "cancelled" &&
    overlaps a.startDateTime a.endDateTime b.startDateTime b.endDateTime

/-- The per-doctor no-double-booking invariant of the appointment store. -/
def NoDoubleBooking (store : List Appointment) : Prop :=
  store.Pairwise (fun a b => apptOverlap a b = false)

/-- Appointment stores reachable from `base` by any sequence of booking and
cancellation requests (both the logical-delete and the hard-delete
cancellation are included). -/
inductive Reachable (base : List Appointment) : List Appointment → Prop where
  | base : Reachable base base
  | book (store : List Appointment)
      (doctorId newAppointmentId patientId : String) (dayBase : Int)
      (timeSlot : String) (patientHasEmail : Bool)
      (emailOutcome : Except String String) :
      Reachable base store →
      Reachable base (bookAppointment store doctorId newAppointmentId
        patientId dayBase timeSlot patientHasEmail emailOutcome).2
  | cancel (store : List Appointment) (appointmentId : String) :
      Reachable base store →
      Reachable base (cancelAppointmentLogical store appointmentId)
  | cancelDelete (store : List Appointment) (appointmentId : String) :
      Reachable base store →
      Reachable base (cancelAppointmentDelete store appointmentId)

theorem bookAppointment_preserves (store : List Appointment)
    (doctorId newAppointmentId patientId : String) (dayBase : Int)
    (timeSlot : String) (patientHasEmail : Bool)
    (emailOutcome : Except String String)
    (hinv : NoDoubleBooking store) :
    NoDoubleBooking (bookAppointment store doctorId newAppointmentId patientId
      dayBase timeSlot patientHasEmail emailOutcome).2 := by
  unfold NoDoubleBooking at *
  cases hparse : parseTimeSlot timeSlot with
  | none => simpa only [bookAppointment, hparse] using hinv
  | some se =>
    obtain ⟨startMinutes, endMinutes⟩ := se
    cases hfind : findConflicting store doctorId
        (dayBase + (startMinutes : Int) * 60000)
        (dayBase + (endMinutes : Int) * 60000) with
    | some a => simpa only [bookAppointment, hparse, hfind] using hinv
    | none =>
      simp only [bookAppointment, hparse, hfind]
      rw [List.pairwise_append]
      refine ⟨hinv, List.pairwise_singleton _ _, ?_⟩
      intro a ha b hb
      rw [List.mem_singleton] at hb
      subst hb
      have hnot := List.find?_eq_none.mp hfind a ha
      by_cases hd : a.doctorId = doctorId
      · by_cases hs : a.status = "cancelled"
        · simp [apptOverlap, hs]
        · have hov : overlaps a.startDateTime a.endDateTime
              (dayBase + (startMinutes : Int) * 60000)
              (dayBase + (endMinutes : Int) * 60000) = false := by
            revert hnot
            simp [hd, hs]
          simp [apptOverlap, hov]
      · simp [apptOverlap, hd]

theorem cancelAppointmentLogical_preserves (store : List Appointment)
    (appointmentId : String) (hinv : NoDoubleBooking store) :
    NoDoubleBooking (cancelAppointmentLogical store appointmentId) := by
  unfold NoDoubleBooking cancelAppointmentLogical at *
  apply List.Pairwise.map _ _ hinv
  intro a b hab
  by_cases hda : a.appointmentId == appointmentId <;>
    by_cases hdb : b.appointmentId == appointmentId <;>
    simp only [hda, hdb, if_true, if_false, apptOverlap] at hab ⊢ <;>
    simp_all [apptOverlap]

theorem cancelAppointmentDelete_preserves (store : List Appointment)
    (appointmentId : String) (hinv : NoDoubleBooking store) :
    NoDoubleBooking (cancelAppointmentDelete store appointmentId) :=
  hinv.sublist (List.eraseP_sublist _)

/-- C2 (amended): the no-double-booking invariant holds in every store
reachable from an invariant-satisfying base by bookings and cancellations;
and two sequential booking requests for the same doctor and the exact same
proper interval (start before end) persist at most one appointment, the
second receiving the 409 conflict and changing nothing.  (The properness
condition is necessary: for a degenerate parsed interval with start ≥ end
the overlap predicate is always false and both bookings persist, see the
counterexample.) -/
theorem no_double_booking_invariant (base : List Appointment)
    (hbase : NoDoubleBooking base) :
    (∀ store, Reachable base store → NoDoubleBooking store) ∧
    (∀ (store : List Appointment) (doctorId id1 p1 id2 p2 : String)
        (dayBase : Int) (timeSlot : String) (he1 he2 : Bool)
        (eo1 eo2 : Except String String) (startMinutes endMinutes : Nat),
      parseTimeSlot timeSlot = some (startMinutes, endMinutes) →
      startMinutes < endMinutes →
      (bookAppointment store doctorId id1 p1 dayBase timeSlot he1 eo1).1.success
        = true →
      (bookAppointment
          (bookAppointment store doctorId id1 p1 dayBase timeSlot he1 eo1).2
          doctorId id2 p2 dayBase timeSlot he2 eo2).1.status = 409 ∧
      (bookAppointment
          (bookAppointment store doctorId id1 p1 dayBase timeSlot he1 eo1).2
          doctorId id2 p2 dayBase timeSlot he2 eo2).2 =
        (bookAppointment store doctorId id1 p1 dayBase timeSlot he1 eo1).2) := by
  constructor
  · intro store hreach
    induction hreach with
    | base => exact hbase
    | book store doctorId newAppointmentId patientId dayBase timeSlot
        patientHasEmail emailOutcome _ ih =>
      exact bookAppointment_preserves store doctorId newAppointmentId
        patientId dayBase timeSlot patientHasEmail emailOutcome ih
    | cancel store appointmentId _ ih =>
      exact cancelAppointmentLogical_preserves store appointmentId ih
    | cancelDelete store appointmentId _ ih =>
      exact cancelAppointmentDelete_preserves store appointmentId ih
  · intro store doctorId id1 p1 id2 p2 dayBase timeSlot he1 he2 eo1 eo2
      startMinutes endMinutes hparse hlt hsuccess
    cases hfind : findConflicting store doctorId
        (dayBase + (startMinutes : Int) * 60000)
        (dayBase + (endMinutes : Int) * 60000) with
    | some a =>
      exfalso
      simp only [bookAppointment, hparse, hfind] at hsuccess
      exact Bool.false_ne_true hsuccess
    | none =>
      have hstore2 :
          (bookAppointment store doctorId id1 p1 dayBase timeSlot he1 eo1).2 =
            store ++ [(⟨id1, doctorId, p1,
              dayBase + (startMinutes : Int) * 60000,
              dayBase + (endMinutes : Int) * 60000,
              "confirmed"⟩ : Appointment)] := by
        simp only [bookAppointment, hparse, hfind]
      rw [hstore2]
      have hsome : (findConflicting
          (store ++ [(⟨id1, doctorId, p1,
            dayBase + (startMinutes : Int) * 60000,
            dayBase + (endMinutes : Int) * 60000,
            "confirmed"⟩ : Appointment)]) doctorId
          (dayBase + (startMinutes : Int) * 60000)
          (dayBase + (endMinutes : Int) * 60000)).isSome := by
        unfold findConflicting
        rw [List.find?_isSome]
        refine ⟨_, List.mem_append_right _ (List.mem_singleton_self _), ?_⟩
        have hSE : dayBase + (startMinutes : Int) * 60000 <
            dayBase + (endMinutes : Int) * 60000 := by
          have : (60000 : Int) * (startMinutes : Int) <
              60000 * (endMinutes : Int) := by omega
          omega
        simp [overlaps, hSE]
      rcases Option.isSome_iff_exists.mp hsome with ⟨b, hb⟩
      constructor <;> simp only [bookAppointment, hparse, hb]

/-- C2 is false as stated for degenerate "exact same interval" requests: the
timeSlot `"12:45 PM - 01:15 PM"` parses to start 765 and end 750 (the
handler's end-reconstruction yields an interval with start ≥ end), the
overlap predicate is false on it, and two sequential identical booking
requests for the same doctor both succeed, persisting two non-cancelled
appointments with the exact same interval. -/
theorem double_booking_counterexample :
    parseTimeSlot "12:45 PM - 01:15 PM" = some (765, 750) ∧
    (bookAppointment [] "D-1" "A-1" "P-1" 0 "12:45 PM - 01:15 PM" true
        (Except.ok "m1")).1.success = true ∧
    (bookAppointment
        (bookAppointment [] "D-1" "A-1" "P-1" 0 "12:45 PM - 01:15 PM" true
          (Except.ok "m1")).2
        "D-1" "A-2" "P-2" 0 "12:45 PM - 01:15 PM" true
        (Except.ok "m2")).1.success = true ∧
    (bookAppointment
        (bookAppointment [] "D-1" "A-1" "P-1" 0 "12:45 PM - 01:15 PM" true
          (Except.ok "m1")).2
        "D-1" "A-2" "P-2" 0 "12:45 PM - 01:15 PM" true
        (Except.ok "m2")).2 =
      [{ appointmentId := "A-1", doctorId := "D-1", patientId := "P-1",
         startDateTime := 45900000, endDateTime := 45000000,
         status := "confirmed" },
       { appointmentId := "A-2", doctorId := "D-1", patientId := "P-2",
         startDateTime := 45900000, endDateTime := 45000000,
         status := "confirmed" }] := by decide

theorem no_double_booking_invariant_witness :
    (bookAppointment
        (bookAppointment [] "D-1" "A-1" "P-1" 0 "09:00 AM - 09:30 AM" true
          (Except.ok "m1")).2
        "D-1" "A-2" "P-2" 0 "09:00 AM - 09:30 AM" true
        (Except.ok "m2")).1.status = 409 :=
  ((no_double_booking_invariant [] (List.Pairwise.nil)).2 [] "D-1" "A-1" "P-1"
    "A-2" "P-2" 0 "09:00 AM - 09:30 AM" true true (Except.ok "m1")
    (Except.ok "m2") 540 570 (by decide) (by decide) (by decide)).1

/-! ### Claim C6 -/

/-- C6: when the requested date's weekday is marked `available: false` in
the doctor's weekly template, the availability handler answers the success
response with an empty slot list and issues no external call: neither the
free/busy source nor the appointment store is consulted. -/
theorem unavailable_day_no_external_calls (doctor : Doctor)
    (date dayOfWeek : String) (dayBase : Int)
    (busySource : String → List BusyPeriod)
    (appointmentSource : String → String → List Appointment)
    (d : DayAvailability)
    (hday : doctor.availability dayOfWeek = some d)
    (hunavail : d.available = false) :
    availabilityHandler doctor date dayOfWeek dayBase busySource
        appointmentSource =
      ({ status := 200, success := true, availableSlots := [],
         message := some "Doctor not available on this day" }, []) := by
  unfold availabilityHandler
  rw [hday]
  simp [hunavail]

theorem unavailable_day_no_external_calls_witness :
    availabilityHandler
        ⟨"D-1", "Dr. A", some "cal-1",
          fun w => if w = "sunday" then some ⟨false, none, none⟩ else none⟩
        "2025-12-07" "sunday" 0 (fun _ => [⟨0, 86400000⟩]) (fun _ _ => []) =
      ({ status := 200, success := true, availableSlots := [],
         message := some "Doctor not available on this day" }, []) :=
  unavailable_day_no_external_calls _ "2025-12-07" "sunday" 0 _ _
    ⟨false, none, none⟩ (by decide) rfl

/-! ### Claim C8 -/

theorem verifyOTP_valid_iff (store : OTPStore) (email otp : String)
    (now : Int) :
    (verifyOTP store email otp now).1.valid = true ↔
      ∃ d, store email = some d ∧ now ≤ d.expiryTime ∧ d.attempts < 5 ∧
        d.otp = otp := by
  cases h : store email with
  | none =>
    unfold verifyOTP
    rw [h]
    simp
  | some d =>
    unfold verifyOTP
    rw [h]
    dsimp only
    split_ifs with h1 h2 h3 <;> simp_all

theorem verifyOTP_evicts (store : OTPStore) (email otp : String) (now : Int)
    (d : OTPEntry) (hd : store email = some d)
    (hcase : (verifyOTP store email otp now).1.valid = true ∨
      d.expiryTime < now ∨ 5 ≤ d.attempts) :
    (verifyOTP store email otp now).2 email = none := by
  unfold verifyOTP at hcase ⊢
  rw [hd] at hcase ⊢
  dsimp only at hcase ⊢
  split_ifs at hcase ⊢ with h1 h2 h3
  · simp [eraseOTP]
  · simp [eraseOTP]
  · exfalso
    rcases hcase with hc | hc | hc
    · exact absurd hc (by simp)
    · omega
    · omega
  · simp [eraseOTP]

theorem verifyOTP_preserves (store : OTPStore) (email otp : String)
    (now : Int) (d' : OTPEntry)
    (hd' : (verifyOTP store email otp now).2 email = some d') :
    ∃ d, store email = some d ∧ d'.expiryTime = d.expiryTime ∧
      d'.otp = d.otp ∧ d.attempts ≤ d'.attempts := by
  unfold verifyOTP at hd'
  cases h : store email with
  | none =>
    rw [h] at hd'
    simp_all
  | some d =>
    rw [h] at hd'
    dsimp only at hd'
    split_ifs at hd' with h1 h2 h3
    · simp [eraseOTP] at hd'
    · simp [eraseOTP] at hd'
    · simp only [if_pos] at hd'
      simp only [Option.some.injEq] at hd'
      subst hd'
      exact ⟨d, rfl, rfl, rfl, Nat.le_succ _⟩
    · simp [eraseOTP] at hd'

theorem verifyRunOn_absent (email : String) :
    ∀ (calls : List (String × Int)) (store : OTPStore),
      store email = none →
      (∀ r ∈ (verifyRunOn store email calls).1, r.valid = false) ∧
      (verifyRunOn store email calls).2 email = none := by
  intro calls
  induction calls with
  | nil =>
    intro store h
    exact ⟨by simp [verifyRunOn], h⟩
  | cons c rest ih =>
    intro store h
    obtain ⟨otp, now⟩ := c
    have hstep : verifyOTP store email otp now =
        ({ valid := false,
           message := "OTP not found or expired. Please request a new OTP.",
           remainingAttempts := some 0 }, store) := by
      unfold verifyOTP
      rw [h]
    rw [verifyRunOn, hstep]
    refine ⟨?_, (ih store h).2⟩
    intro r hr
    rcases List.mem_cons.mp hr with hr | hr
    · rw [hr]
    · exact (ih store h).1 r hr

theorem verifyRunOn_count (email : String) :
    ∀ (calls : List (String × Int)) (store : OTPStore),
      ((verifyRunOn store email calls).1.countP (fun r => r.valid)) ≤ 1 := by
  intro calls
  induction calls with
  | nil =>
    intro store
    exact Nat.zero_le 1
  | cons c rest ih =>
    intro store
    obtain ⟨otp, now⟩ := c
    rw [verifyRunOn]
    dsimp only
    rw [List.countP_cons]
    cases hv : (verifyOTP store email otp now).1.valid with
    | false =>
      have := ih (verifyOTP store email otp now).2
      simpa [hv] using this
    | true =>
      have hnone : (verifyOTP store email otp now).2 email = none := by
        obtain ⟨d, hd, _, _, _⟩ := (verifyOTP_valid_iff store email otp now).mp hv
        exact verifyOTP_evicts store email otp now d hd (Or.inl hv)
      have habs := (verifyRunOn_absent email rest _ hnone).1
      have hcount : ((verifyRunOn (verifyOTP store email otp now).2 email
          rest).1.countP (fun r => r.valid)) = 0 := by
        rw [List.countP_eq_zero]
        intro r hr
        simp [habs r hr]
      simp [hv, hcount]

theorem verifyRunOn_no_late_accept (email : String) :
    ∀ (calls : List (String × Int)) (store : OTPStore) (d : OTPEntry),
      store email = some d →
      ∀ pr ∈ ((verifyRunOn store email calls).1.zip calls),
        d.expiryTime < pr.2.2 → pr.1.valid = false := by
  intro calls
  induction calls with
  | nil =>
    intro store d _ pr hpr
    simp [verifyRunOn] at hpr
  | cons c rest ih =>
    intro store d hd pr hpr hlate
    obtain ⟨otp, now⟩ := c
    rw [verifyRunOn] at hpr
    dsimp only at hpr
    rw [List.zip_cons_cons] at hpr
    rcases List.mem_cons.mp hpr with heq | hmem
    · subst heq
      dsimp only at hlate ⊢
      cases hv : (verifyOTP store email otp now).1.valid with
      | false => rfl
      | true =>
        exfalso
        obtain ⟨d2, hd2, hle, _, _⟩ :=
          (verifyOTP_valid_iff store email otp now).mp hv
        rw [hd] at hd2
        injection hd2 with h00
        subst h00
        omega
    · obtain ⟨r, c2⟩ := pr
      cases h2 : (verifyOTP store email otp now).2 email with
      | none =>
        exact (verifyRunOn_absent email rest _ h2).1 r (List.of_mem_zip hmem).1
      | some d2 =>
        obtain ⟨d0, hd0, hexp, _, _⟩ :=
          verifyOTP_preserves store email otp now d2 h2
        rw [hd] at hd0
        injection hd0 with h00
        subst h00
        refine ih _ d2 h2 (r, c2) hmem ?_
        dsimp only at hlate ⊢
        omega

theorem verifyRunOn_exhausted (email : String) :
    ∀ (calls : List (String × Int)) (store : OTPStore) (d : OTPEntry),
      store email = some d → 5 ≤ d.attempts →
      ∀ r ∈ (verifyRunOn store email calls).1, r.valid = false := by
  intro calls
  induction calls with
  | nil =>
    intro store d _ _ r hr
    simp [verifyRunOn] at hr
  | cons c rest ih =>
    intro store d hd hatt r hr
    obtain ⟨otp, now⟩ := c
    rw [verifyRunOn] at hr
    dsimp only at hr
    have hnone : (verifyOTP store email otp now).2 email = none :=
      verifyOTP_evicts store email otp now d hd (Or.inr (Or.inr hatt))
    rcases List.mem_cons.mp hr with heq | hmem
    · subst heq
      cases hv : (verifyOTP store email otp now).1.valid with
      | false => rfl
      | true =>
        exfalso
        obtain ⟨d2, hd2, _, hlt, _⟩ :=
          (verifyOTP_valid_iff store email otp now).mp hv
        rw [hd] at hd2
        injection hd2 with h00
        subst h00
        omega
    · exact (verifyRunOn_absent email rest _ hnone).1 r hmem

/-- C9: `verifyOTP` accepts exactly when the submitted code equals the
stored one, the call time is at or before the 5-minute expiry recorded by
`storeOTP`, and fewer than 5 failed attempts are recorded; in every success,
expiry, or attempt-exhaustion case the entry is evicted.  Consequently, over
any sequence of verification calls with no re-issue, at most one call
succeeds (a code is never consumed twice), no call after the stored expiry
succeeds, and no call succeeds once 5 failed attempts are recorded. -/
theorem otp_verification_sound :
    (∀ (store : OTPStore) (email otp : String) (now : Int),
      storeOTP store email otp now email =
        some ⟨otp, now + OTP_EXPIRY_TIME, 0⟩) ∧
    (∀ (store : OTPStore) (email otp : String) (now : Int),
      (verifyOTP store email otp now).1.valid = true ↔
        ∃ d, store email = some d ∧ now ≤ d.expiryTime ∧ d.attempts < 5 ∧
          d.otp = otp) ∧
    (∀ (store : OTPStore) (email otp : String) (now : Int) (d : OTPEntry),
      store email = some d →
      ((verifyOTP store email otp now).1.valid = true ∨ d.expiryTime < now ∨
        5 ≤ d.attempts) →
      (verifyOTP store email otp now).2 email = none) ∧
    (∀ (store : OTPStore) (email : String) (calls : List (String × Int)),
      ((verifyRunOn store email calls).1.countP (fun r => r.valid)) ≤ 1) ∧
    (∀ (store : OTPStore) (email : String) (calls : List (String × Int))
        (d : OTPEntry),
      store email = some d →
      ∀ pr ∈ ((verifyRunOn store email calls).1.zip calls),
        d.expiryTime < pr.2.2 → pr.1.valid = false) ∧
    (∀ (store : OTPStore) (email : String) (calls : List (String × Int))
        (d : OTPEntry),
      store email = some d → 5 ≤ d.attempts →
      ∀ r ∈ (verifyRunOn store email calls).1, r.valid = false) :=
  ⟨fun store email otp now => by simp [storeOTP],
   verifyOTP_valid_iff,
   verifyOTP_evicts,
   fun store email calls => verifyRunOn_count email calls store,
   fun store email calls => verifyRunOn_no_late_accept email calls store,
   fun store email calls => verifyRunOn_exhausted email calls store⟩

theorem otp_verification_sound_witness :
    (verifyOTP (storeOTP (fun _ => none) "a@b.c" "123456" 0) "a@b.c" "123456"
        1).1.valid = true ∧
    (verifyOTP (storeOTP (fun _ => none) "a@b.c" "123456" 0) "a@b.c" "123456"
        1).2 "a@b.c" = none ∧
    ((verifyRunOn (storeOTP (fun _ => none) "a@b.c" "123456" 0) "a@b.c"
        [("123456", 1), ("123456", 2)]).1.countP (fun r => r.valid)) ≤ 1 := by
  refine ⟨by decide, ?_, ?_⟩
  · exact otp_verification_sound.2.2.1 _ "a@b.c" "123456" 1
      ⟨"123456", 300000, 0⟩ (by decide) (Or.inl (by decide))
  · exact otp_verification_sound.2.2.2.1 _ "a@b.c" _

end Medicare
